import Mathlib

/-!
Shallow embedding of the BISA claims-calculator engine
(source: `src/streamlit_app.py`).

Modelling conventions:
* A pandas cell is a `CellVal`: a string, a number, a date, or missing
  (`vnone`, standing for NaN/NaT).  Monetary amounts are modelled as
  integers (the source works with Python floats; every business rule is
  pure comparison/addition, so integer arithmetic is faithful on the
  integral inputs the rules are specified with).
* A DataFrame row is an association list from column name (header) to
  `CellVal`; a missing key reads as `vnone`, as a reindexed/concatenated
  DataFrame yields NaN for absent columns.
* Python `KeyError` (dict/column lookup failure) is modelled with
  `Except String`; an `.error` value is an uncaught exception propagating
  out of `process_quarters`.
* Filename regexes `\b(enero|...|diciembre)\b` and `\b20\d{2}\b` match a
  whole maximal word (runs of `\w` characters); the model tokenises the
  lowercased filename into words and takes the first word equal to a
  month name resp. the first word of shape `20dd`.  ASCII-only, as in the
  inputs considered here.
* String functions are written over `String.data` (lists of characters)
  with structural recursion so that all concrete runs reduce inside the
  kernel.
-/

/-- Calendar date (year, month, day).  pandas `Timestamp`s are compared
chronologically; with `month ≤ 12` and `day ≤ 31` the numeric key below
orders dates chronologically. -/
structure Date where
  year : Int
  month : Nat
  day : Nat
deriving Repr, DecidableEq

def dateKey (d : Date) : Int := d.year * 10000 + (d.month : Int) * 100 + (d.day : Int)

def dateLe (a b : Date) : Bool := decide (dateKey a ≤ dateKey b)

/-- One spreadsheet cell. `vnone` is NaN/NaT/absent. -/
inductive CellVal where
  | vstr (s : String)
  | vnum (n : Int)
  | vdate (d : Date)
  | vnone
deriving Repr, DecidableEq

/-- A DataFrame row: association list column-header → cell. -/
abbrev Row := List (String × CellVal)

/-- Reading a column of a row; an absent column reads NaN, as in a
concatenated/reindexed DataFrame. -/
def getCell (r : Row) (c : String) : CellVal :=
  (((r.find? (fun p => p.1 == c))).map Prod.snd).getD .vnone

/-- Model of `pd.to_datetime(·, errors="coerce")`: a date cell parses, anything
else coerces to NaT (here: `none`). -/
def parseDate : CellVal → Option Date
  | .vdate d => some d
  | _ => none

/-- Numeric view of a cell; NaN/non-numeric contributes 0, as NaN does
under pandas sums with `fillna(0)`. -/
def cellInt : CellVal → Int
  | .vnum n => n
  | _ => 0

/-- Model of `astype(str)`: string rendering of a cell; NaN renders as `"nan"`. -/
def cellToStr : CellVal → String
  | .vstr s => s
  | .vnum n => toString n
  | .vdate d => toString d.year ++ "-" ++ toString d.month ++ "-" ++ toString d.day
  | .vnone => "nan"

/-- ASCII lower-casing of one character (Python `str.lower` on the ASCII
inputs considered). -/
def lowerChar (c : Char) : Char :=
  if 65 ≤ c.toNat ∧ c.toNat ≤ 90 then Char.ofNat (c.toNat + 32) else c

/-- Does `text` start with `pat`? -/
def startsWithChars : List Char → List Char → Bool
  | [], _ => true
  | _ :: _, [] => false
  | p :: ps, t :: ts => p == t && startsWithChars ps ts

/-- Substring search over character lists (`in` / `str.contains`). -/
def containsChars (pat : List Char) : List Char → Bool
  | [] => pat.isEmpty
  | t :: ts => startsWithChars pat (t :: ts) || containsChars pat ts

/-- Model of `.str.contains("COVID", case=False)`: case-insensitive substring
test for `COVID`. -/
def containsCOVID (s : String) : Bool :=
  containsChars "covid".data (s.data.map lowerChar)

/-- Source `month_mapping` (line 10): Spanish month name → month number. -/
def month_mapping : List (String × Nat) :=
  [("enero", 1), ("febrero", 2), ("marzo", 3), ("abril", 4),
   ("mayo", 5), ("junio", 6), ("julio", 7), ("agosto", 8),
   ("septiembre", 9), ("octubre", 10), ("noviembre", 11), ("diciembre", 12)]

def month_names : List String := month_mapping.map Prod.fst

/-- Source `variations` table of `detect_columns` (lines 18-24). -/
def variations : List (String × List String) :=
  [("COD_ASEGURADO", ["COD_ASEGURADO"]),
   ("NOMBRE_ASEGURADO", ["NOMBRES ASEGURADO", "NOMBRE ASEGURADO", "NOMBRESASEURADO"]),
   ("FECHA_RECLAMO", ["FECHA_RECLAMO"]),
   ("MONTO", ["MONTO"]),
   ("DIAGNOSTICO", ["DIAGNOSTICOS", "DIAGNOSTICO"])]

/-- Source `detect_columns` (lines 17-31): canonical field → first accepted
variant present among the headers; absent fields omitted. -/
def detect_columns (cols : List String) : List (String × String) :=
  variations.filterMap (fun p =>
    (p.2.find? (fun o => cols.contains o)).map (fun o => (p.1, o)))

def lookupCol (detected : List (String × String)) (key : String) : Option String :=
  (detected.find? (fun p => p.1 == key)).map Prod.snd

/-- Source `cap_value` (lines 34-35): symmetric clamp to `[-cap_limit, cap_limit]`. -/
def cap_value (value cap_limit : Int) : Int :=
  max (min value cap_limit) (-cap_limit)

/-- Is a character a regex word character (`\w`, ASCII)? -/
def isWordChar (c : Char) : Bool := c.isAlphanum || c == '_'

/-- Split a character list into its maximal runs of word characters. -/
def splitWordsAux : List Char → List Char → List (List Char)
  | [], acc => if acc.isEmpty then [] else [acc.reverse]
  | c :: cs, acc =>
      if isWordChar c then splitWordsAux cs (c :: acc)
      else if acc.isEmpty then splitWordsAux cs acc
      else acc.reverse :: splitWordsAux cs []

def wordsOf (s : String) : List (List Char) :=
  splitWordsAux (s.data.map lowerChar) []

/-- Does this word match `\b(20\d{2})\b`? -/
def is_year_token (w : List Char) : Bool :=
  match w with
  | ['2', '0', c, d] => c.isDigit && d.isDigit
  | _ => false

def year_of_token (w : List Char) : Int :=
  match w with
  | [_, _, c, d] => 2000 + 10 * ((c.toNat : Int) - 48) + ((d.toNat : Int) - 48)
  | _ => 0

/-- Source `extract_month_year` (lines 38-44): first whole word of the
lowercased filename that is a Spanish month name, and first whole word
matching `20\d{2}`. -/
def extract_month_year (filename : String) : Option String × Option Int :=
  let ws := wordsOf filename
  ((ws.find? (fun w => month_names.any (fun m => m.data == w))).map (fun w => String.mk w),
   (ws.find? is_year_token).map year_of_token)

/-- Source `extract_year_from_dates` (lines 47-49): year of the first row whose
date parses (`unique()[0]` keeps first appearance). -/
def extract_year_from_dates (rows : List Row) (col : String) : Option Int :=
  (rows.filterMap (fun r => (parseDate (getCell r col)).map Date.year)).head?

/-- One sheet of a workbook. -/
structure Sheet where
  header : List String
  rows : List Row
deriving Repr, DecidableEq

/-- The required-columns check of line 63. -/
def required_columns : List String :=
  ["COD_ASEGURADO", "NOMBRE_ASEGURADO", "FECHA_RECLAMO", "MONTO"]

def required_columns_present (headers : List String) : Bool :=
  required_columns.all (fun c => (lookupCol (detect_columns headers) c).isSome)

def in_range (rg : Date × Date) (d : Date) : Bool := dateLe rg.1 d && dateLe d rg.2

/-- Lines 60-72: a sheet passes validation iff the four required
canonical columns are detected; its valid claims are the rows whose
claim date parses and lies in the date window (a NaT date compares
`False`).  The date column is read under the literal name
`FECHA_RECLAMO`: line 65 stores the parsed dates under that literal, and
the only accepted variant for it is that exact header. -/
def sheet_valid_claims (rg : Date × Date) (s : Sheet) : Option (List Row) :=
  if required_columns_present s.header then
    some (s.rows.filter (fun r =>
      match parseDate (getCell r "FECHA_RECLAMO") with
      | some d => in_range rg d
      | none => false))
  else none

/-- Source `load_and_validate_claims` (lines 52-85): keep the sheet with the
strictly greatest number of valid claims (`>` against a running maximum
starting at 0, so ties keep the earlier sheet and a sheet failing
validation or with zero valid claims is never selected); result is an
empty table when no sheet qualifies. -/
def load_and_validate_claims (rg : Date × Date) (sheets : List Sheet) : List Row :=
  (sheets.foldl (fun acc s =>
    match sheet_valid_claims rg s with
    | some claims => if claims.length > acc.2 then (claims, claims.length) else acc
    | none => acc) (([] : List Row), 0)).1

/-- First-appearance deduplication (keys of a dict / `unique()`). -/
def firstOcc {α : Type} [DecidableEq α] (seen : List α) : List α → List α
  | [] => []
  | a :: as => if a ∈ seen then firstOcc seen as else a :: firstOcc (a :: seen) as

/-- All columns of a list of rows, in first-appearance order
(`pd.concat` keeps the union of the columns). -/
def columnsOf (rows : List Row) : List String :=
  firstOcc [] ((rows.map (fun r => r.map Prod.fst)).flatten)

/-- One uploaded file: its name and its sheets. -/
structure FileInput where
  name : String
  sheets : List Sheet
deriving Repr, DecidableEq

/-- A claim row tagged with the MONTH and YEAR columns added at
lines 107-108. -/
structure TRow where
  month : String
  year : Int
  row : Row
deriving Repr, DecidableEq

/-- Line 98: the date window used to validate a file's claims is the
Year-1 window exactly when the filename year equals
`year1_range[0].year`; any other year — or no year at all — selects the
Year-2 window. -/
def range_for_year (year : Option Int) (y1 y2 : Date × Date) : Date × Date :=
  if year = some y1.1.year then y1 else y2

/-- Lines 94-110, one file: extract month/year from the filename,
validate the claims against the window chosen by the filename year, run
the fallback year detection when the filename has no year (line 103
indexes `detected_columns["FECHA_RECLAMO"]`, a `KeyError` when the
validated table has no such column), and tag the claims when both month
and year are known (`if month and year`); otherwise the file contributes
no rows. -/
def fileStep (y1 y2 : Date × Date) (f : FileInput) : Except String (List TRow) :=
  let my := extract_month_year f.name
  let claims := load_and_validate_claims (range_for_year my.2 y1 y2) f.sheets
  let yearE : Except String (Option Int) :=
    match my.2 with
    | some y => .ok (some y)
    | none =>
        match lookupCol (detect_columns (columnsOf claims)) "FECHA_RECLAMO" with
        | none => .error "KeyError: FECHA_RECLAMO"
        | some col => .ok (extract_year_from_dates claims col)
  match yearE with
  | .error e => .error e
  | .ok yr =>
      match my.1, yr with
      | some m, some y => .ok (claims.map (fun r => ⟨m, y, r⟩))
      | _, _ => .ok []

/-- Line 121: `quarter = (month - 1) // 3 + 1`. -/
def quarter_of_month (m : Nat) : Nat := (m - 1) / 3 + 1

/-- Source lookup `month_mapping[name]` (line 120).  The lookup can only be reached
with a name produced by `extract_month_year`, which draws from the
mapping's keys, so the default is never taken. -/
def month_number (s : String) : Nat :=
  ((month_mapping.find? (fun p => p.1 == s)).map Prod.snd).getD 0

/-- The grouping key of lines 120-123, as the pair (quarter, year); the
string key `Q{q}-{year}` of the source is injective in this pair. -/
def quarter_key (t : TRow) : Nat × Int := (quarter_of_month (month_number t.month), t.year)

def quarter_label (k : Nat × Int) : String :=
  "Q" ++ toString k.1 ++ "-" ++ toString k.2

/-- Append a row to its quarter's group, keeping dict insertion order
(lines 125-127). -/
def insert_group (gs : List ((Nat × Int) × List Row)) (k : Nat × Int) (r : Row) :
    List ((Nat × Int) × List Row) :=
  match gs with
  | [] => [(k, [r])]
  | g :: rest => if g.1 = k then (g.1, g.2 ++ [r]) :: rest else g :: insert_group rest k r

def group_by_quarter (ts : List TRow) : List ((Nat × Int) × List Row) :=
  ts.foldl (fun gs t => insert_group gs (quarter_key t) t.row) []

/-- One output row of a Period Summary (line 227's column order). -/
structure SummaryRow where
  cod : CellVal
  nombre : CellVal
  covid_amount : Int
  general_amount : Int
  total_amount : Int
  final : Int
deriving Repr, DecidableEq

/-- The distinct `(COD, NOMBRE)` group keys of a quarter's rows.  pandas
`groupby` emits groups sorted by key; no property below depends on row
order, and first-appearance order is used here. -/
def groupPairs (ccol ncol : String) (rows : List Row) : List (CellVal × CellVal) :=
  firstOcc [] (rows.map (fun r => (getCell r ccol, getCell r ncol)))

/-- Per-row `COVID_AMOUNT` (lines 155-162): with a detected diagnosis
column, the full amount when the diagnosis text contains `COVID`
case-insensitively (NaN renders as `"nan"` under `astype(str)` and the
`na=False` path, so it never matches), else 0; with no diagnosis column,
0 for every row. -/
def covid_amount_row (dcol : Option String) (mcol : String) (r : Row) : Int :=
  match dcol with
  | some dc =>
      if containsCOVID (cellToStr (getCell r dc)) then cellInt (getCell r mcol) else 0
  | none => 0

/-- Per-row `GENERAL_AMOUNT` (line 163): amount minus COVID share. -/
def general_amount_row (dcol : Option String) (mcol : String) (r : Row) : Int :=
  cellInt (getCell r mcol) - covid_amount_row dcol mcol r

/-- Year-1 branch (lines 154-173): per `(COD, NOMBRE)` group, the COVID
and general sums are taken over all rows sharing the COD (lines 166-170
group by `COD_ASEGURADO` alone and merge on it), `TOTAL_AMOUNT` is
recomputed as their sum, and `FINAL = cap_value(TOTAL_AMOUNT, 20000)`. -/
def year1_summary (dcol : Option String) (mcol ccol ncol : String) (rows : List Row) :
    List SummaryRow :=
  (groupPairs ccol ncol rows).map (fun p =>
    let codRows := rows.filter (fun r => getCell r ccol == p.1)
    let covid := (codRows.map (covid_amount_row dcol mcol)).sum
    let general := (codRows.map (general_amount_row dcol mcol)).sum
    { cod := p.1, nombre := p.2, covid_amount := covid, general_amount := general,
      total_amount := covid + general, final := cap_value (covid + general) 20000 })

/-- Year-2 branch (lines 176-179): per `(COD, NOMBRE)` group,
`COVID_AMOUNT = 0`, `GENERAL_AMOUNT` is the group's raw period sum, and
`TOTAL_AMOUNT = FINAL = cap_value(sum, 40000)`. -/
def year2_summary (mcol ccol ncol : String) (rows : List Row) : List SummaryRow :=
  (groupPairs ccol ncol rows).map (fun p =>
    let t := ((rows.filter (fun r => getCell r ccol == p.1 && getCell r ncol == p.2)).map
      (fun r => cellInt (getCell r mcol))).sum
    { cod := p.1, nombre := p.2, covid_amount := 0, general_amount := t,
      total_amount := cap_value t 40000, final := cap_value t 40000 })

/-- Line 141: the detected columns of a quarter's DataFrame. -/
def detectedOf (rows : List Row) : List (String × String) :=
  detect_columns (columnsOf rows)

/-- Lines 140-179, one quarter: detect columns on the quarter's
DataFrame (a `KeyError` when a required one is missing), then the year
test `year == year1_range[0].year` picks the Year-1 or Year-2 branch. -/
def process_quarter (y1year : Int) (k : Nat × Int) (rows : List Row) :
    Except String (List SummaryRow) :=
  match lookupCol (detectedOf rows) "COD_ASEGURADO" with
  | none => .error "KeyError: COD_ASEGURADO"
  | some ccol =>
      match lookupCol (detectedOf rows) "NOMBRE_ASEGURADO" with
      | none => .error "KeyError: NOMBRE_ASEGURADO"
      | some ncol =>
          match lookupCol (detectedOf rows) "MONTO" with
          | none => .error "KeyError: MONTO"
          | some mcol =>
              if k.2 = y1year then
                .ok (year1_summary (lookupCol (detectedOf rows) "DIAGNOSTICO") mcol ccol ncol rows)
              else
                .ok (year2_summary mcol ccol ncol rows)

/-- Lines 94-110: fold `fileStep` over the files, concatenating the
tagged claims. -/
def collect_claims (y1 y2 : Date × Date) (files : List FileInput) :
    Except String (List TRow) :=
  files.foldlM (fun acc f => do
    let t ← fileStep y1 y2 f
    pure (acc ++ t)) []

/-- Source `process_quarters` (lines 88-199), restricted to the emitted
`quarter_data` tables (the progressive-results summary and the dead
`cumulative_data` accumulator are not modelled): tag and concatenate the
claims of all files, group them into quarters, and process each quarter
into its Period Summary. -/
def process_quarters (files : List FileInput) (y1 y2 : Date × Date) :
    Except String (List (String × List SummaryRow)) := do
  let all ← collect_claims y1 y2 files
  (group_by_quarter all).mapM (fun g => do
    let s ← process_quarter y1.1.year g.1 g.2
    pure (quarter_label g.1, s))

/-- Lines 216-217: the two policy-year windows. -/
def year1_range : Date × Date := (⟨2023, 10, 1⟩, ⟨2024, 9, 30⟩)

def year2_range : Date × Date := (⟨2024, 10, 1⟩, ⟨2025, 9, 30⟩)

/-! ## Concrete scenario data -/

/-- Scenario A, claim 1: insured `C1`, COVID-flagged, amount 15000. -/
def rowA1 : Row :=
  [("COD_ASEGURADO", .vstr "C1"), ("NOMBRE ASEGURADO", .vstr "Ana"),
   ("FECHA_RECLAMO", .vdate ⟨2024, 1, 15⟩), ("MONTO", .vnum 15000),
   ("DIAGNOSTICO", .vstr "COVID-19")]

/-- Scenario A, claim 2: insured `C1`, not COVID, amount 10000. -/
def rowA2 : Row :=
  [("COD_ASEGURADO", .vstr "C1"), ("NOMBRE ASEGURADO", .vstr "Ana"),
   ("FECHA_RECLAMO", .vdate ⟨2024, 1, 20⟩), ("MONTO", .vnum 10000),
   ("DIAGNOSTICO", .vstr "GRIPE")]

def sheetA : Sheet :=
  ⟨["COD_ASEGURADO", "NOMBRE ASEGURADO", "FECHA_RECLAMO", "MONTO", "DIAGNOSTICO"],
   [rowA1, rowA2]⟩

/-- Scenario A: one Year-1 file (filename year 2023). -/
def fileA : FileInput := ⟨"enero 2023.xlsx", [sheetA]⟩

/-- The summary row the code actually emits for Scenario A. -/
def scenarioA_row : SummaryRow :=
  ⟨.vstr "C1", .vstr "Ana", 15000, 10000, 25000, 20000⟩

/-- Scenario B, period-1 claim: insured `C2`, amount 35000. -/
def rowB1 : Row :=
  [("COD_ASEGURADO", .vstr "C2"), ("NOMBRE ASEGURADO", .vstr "Beto"),
   ("FECHA_RECLAMO", .vdate ⟨2024, 10, 15⟩), ("MONTO", .vnum 35000)]

/-- Scenario B, period-2 claim: insured `C2`, amount 10000. -/
def rowB2 : Row :=
  [("COD_ASEGURADO", .vstr "C2"), ("NOMBRE ASEGURADO", .vstr "Beto"),
   ("FECHA_RECLAMO", .vdate ⟨2025, 1, 15⟩), ("MONTO", .vnum 10000)]

def fileB1 : FileInput :=
  ⟨"octubre 2024.xlsx",
   [⟨["COD_ASEGURADO", "NOMBRE ASEGURADO", "FECHA_RECLAMO", "MONTO"], [rowB1]⟩]⟩

def fileB2 : FileInput :=
  ⟨"enero 2025.xlsx",
   [⟨["COD_ASEGURADO", "NOMBRE ASEGURADO", "FECHA_RECLAMO", "MONTO"], [rowB2]⟩]⟩

/-- The summary rows the code actually emits for Scenario B. -/
def scenarioB_row1 : SummaryRow := ⟨.vstr "C2", .vstr "Beto", 0, 35000, 35000, 35000⟩

def scenarioB_row2 : SummaryRow := ⟨.vstr "C2", .vstr "Beto", 0, 10000, 10000, 10000⟩

/-- Two-period Year-1 run: insured `A` active only in the first period,
insured `B` only in the second. -/
def rowD1 : Row :=
  [("COD_ASEGURADO", .vstr "A"), ("NOMBRE ASEGURADO", .vstr "Alba"),
   ("FECHA_RECLAMO", .vdate ⟨2023, 11, 15⟩), ("MONTO", .vnum 100)]

def rowD2 : Row :=
  [("COD_ASEGURADO", .vstr "B"), ("NOMBRE ASEGURADO", .vstr "Bea"),
   ("FECHA_RECLAMO", .vdate ⟨2024, 1, 15⟩), ("MONTO", .vnum 200)]

def fileD1 : FileInput :=
  ⟨"octubre 2023.xlsx",
   [⟨["COD_ASEGURADO", "NOMBRE ASEGURADO", "FECHA_RECLAMO", "MONTO"], [rowD1]⟩]⟩

def fileD2 : FileInput :=
  ⟨"enero 2023.xlsx",
   [⟨["COD_ASEGURADO", "NOMBRE ASEGURADO", "FECHA_RECLAMO", "MONTO"], [rowD2]⟩]⟩

def rowDA : SummaryRow := ⟨.vstr "A", .vstr "Alba", 0, 100, 100, 100⟩

def rowDB : SummaryRow := ⟨.vstr "B", .vstr "Bea", 0, 200, 200, 200⟩

/-- A sheet whose headers lack every accepted insured-name variant but
carry the other three required columns, with one claim inside the Year-1
window. -/
def sheetNoName : Sheet :=
  ⟨["COD_ASEGURADO", "FECHA_RECLAMO", "MONTO"],
   [[("COD_ASEGURADO", .vstr "C4"), ("FECHA_RECLAMO", .vdate ⟨2024, 2, 1⟩),
     ("MONTO", .vnum 700)]]⟩

/-- A claim dated January 2024: inside the Year-1 calendar window. -/
def rowC9 : Row :=
  [("COD_ASEGURADO", .vstr "C3"), ("NOMBRE ASEGURADO", .vstr "Cara"),
   ("FECHA_RECLAMO", .vdate ⟨2024, 1, 15⟩), ("MONTO", .vnum 500)]

def sheetC9 : Sheet :=
  ⟨["COD_ASEGURADO", "NOMBRE ASEGURADO", "FECHA_RECLAMO", "MONTO"], [rowC9]⟩

/-- A file named for January 2024 — a Year-1 month with a non-2023
filename year. -/
def fileC9 : FileInput := ⟨"enero 2024.xlsx", [sheetC9]⟩

/-- A file whose name has no 4-digit year token and whose only sheet
fails column validation. -/
def fileC10 : FileInput := ⟨"claims_report.xlsx", [⟨["FOO"], [[("FOO", .vstr "x")]]⟩]⟩

/-! ## Helper lemmas -/

lemma abs_cap_value_le (v c : Int) (hc : 0 ≤ c) : |cap_value v c| ≤ c := by
  rw [cap_value, abs_le]
  exact ⟨le_max_right _ _, max_le (min_le_right _ _) (neg_le_self hc)⟩

lemma year1_summary_final_abs_le (dcol : Option String) (mcol ccol ncol : String)
    (rows : List Row) : ∀ r ∈ year1_summary dcol mcol ccol ncol rows, |r.final| ≤ 20000 := by
  intro r hr
  simp only [year1_summary, List.mem_map] at hr
  obtain ⟨p, -, rfl⟩ := hr
  exact abs_cap_value_le _ _ (by norm_num)

lemma load_and_validate_foldl_const (rg : Date × Date) (sheets : List Sheet)
    (acc : List Row × Nat) (h : ∀ s ∈ sheets, sheet_valid_claims rg s = none) :
    (sheets.foldl (fun acc s =>
      match sheet_valid_claims rg s with
      | some claims => if claims.length > acc.2 then (claims, claims.length) else acc
      | none => acc) acc) = acc := by
  induction sheets generalizing acc with
  | nil => rfl
  | cons s rest ih =>
      have hs := h s (List.mem_cons_self s rest)
      simp only [List.foldl_cons, hs]
      exact ih acc (fun t ht => h t (List.mem_cons_of_mem s ht))

/-! ## Claim theorems -/

/-- C1: the spec claims the running `covid_amount` is clamped to
`[-2000, 2000]` before `total_amount` is recomputed, and that Scenario A
(insured `C1`, claims 15000 COVID-flagged and 10000 general) emits
`covid_amount = 2000`, `general_amount = 10000`, `total_amount = 12000`,
`final = 12000`.  The code applies no covid cap at all: the emitted row
has `covid_amount = 15000`, `total_amount = 25000`, `final = 20000`. -/
theorem C1_counterexample :
    process_quarters [fileA] year1_range year2_range =
      Except.ok [("Q1-2023", [scenarioA_row])] ∧
    scenarioA_row.covid_amount ≠ 2000 ∧ scenarioA_row.total_amount ≠ 12000 ∧
    scenarioA_row.final ≠ 12000 :=
  ⟨rfl, by decide, by decide, by decide⟩

/-- C1 (amended): no cap is applied to the running `covid_amount`; it is
the plain sum of the insured's per-claim COVID amounts, `total_amount`
is recomputed as `covid_amount + general_amount`, and only
`total_amount` is clamped (to `[-20000, 20000]`) to give `final`.
Scenario A emits `covid_amount = 15000`, `general_amount = 10000`,
`total_amount = 25000`, `final = 20000`. -/
theorem C1_amended :
    (process_quarters [fileA] year1_range year2_range =
      Except.ok [("Q1-2023", [scenarioA_row])]) ∧
    (∀ (dcol : Option String) (mcol ccol ncol : String) (rows : List Row)
        (r : SummaryRow), r ∈ year1_summary dcol mcol ccol ncol rows →
      r.covid_amount =
        ((rows.filter (fun x => getCell x ccol == r.cod)).map
          (covid_amount_row dcol mcol)).sum ∧
      r.total_amount = r.covid_amount + r.general_amount ∧
      r.final = cap_value r.total_amount 20000) := by
  refine ⟨rfl, ?_⟩
  intro dcol mcol ccol ncol rows r hr
  simp only [year1_summary, List.mem_map] at hr
  obtain ⟨p, -, rfl⟩ := hr
  exact ⟨rfl, rfl, rfl⟩

theorem C1_amended_witness :
    scenarioA_row.covid_amount =
      (([rowA1, rowA2].filter (fun x => getCell x "COD_ASEGURADO" == scenarioA_row.cod)).map
        (covid_amount_row (some "DIAGNOSTICO") "MONTO")).sum ∧
    scenarioA_row.total_amount = scenarioA_row.covid_amount + scenarioA_row.general_amount ∧
    scenarioA_row.final = cap_value scenarioA_row.total_amount 20000 :=
  C1_amended.2 (some "DIAGNOSTICO") "MONTO" "COD_ASEGURADO" "NOMBRE ASEGURADO"
    [rowA1, rowA2] scenarioA_row (by decide)

/-- C2: the spec claims a Year-2 trigger: `final` non-zero only when the
running cumulative total exceeds 40000, and then the cumulative payout
clamped at 2000000 (Scenario B: finals 0 then 45000).  The code has no
trigger and no cumulative payout: each Year-2 period independently emits
`final = cap_value(period total, 40000)`; Scenario B emits 35000 then
10000. -/
theorem C2_counterexample :
    process_quarters [fileB1, fileB2] year1_range year2_range =
      Except.ok [("Q4-2024", [scenarioB_row1]), ("Q1-2025", [scenarioB_row2])] ∧
    scenarioB_row1.final ≠ 0 ∧ scenarioB_row2.final ≠ 45000 :=
  ⟨rfl, by decide, by decide⟩

/-- C2 (amended): Year-2 periods apply no trigger and keep no cumulative
payout: every Year-2 summary row has `covid_amount = 0`,
`general_amount` the period's own sum, and
`total_amount = final = cap_value(general_amount, 40000)`.  For insured
`C2` with period claims 35000 then 10000, the emitted finals are 35000
and 10000. -/
theorem C2_amended :
    (process_quarters [fileB1, fileB2] year1_range year2_range =
      Except.ok [("Q4-2024", [scenarioB_row1]), ("Q1-2025", [scenarioB_row2])]) ∧
    (∀ (mcol ccol ncol : String) (rows : List Row) (r : SummaryRow),
        r ∈ year2_summary mcol ccol ncol rows →
      r.covid_amount = 0 ∧ r.final = cap_value r.general_amount 40000 ∧
      r.total_amount = r.final) := by
  refine ⟨rfl, ?_⟩
  intro mcol ccol ncol rows r hr
  simp only [year2_summary, List.mem_map] at hr
  obtain ⟨p, -, rfl⟩ := hr
  exact ⟨rfl, rfl, rfl⟩

theorem C2_amended_witness :
    scenarioB_row1.covid_amount = 0 ∧
    scenarioB_row1.final = cap_value scenarioB_row1.general_amount 40000 ∧
    scenarioB_row1.total_amount = scenarioB_row1.final :=
  C2_amended.2 "MONTO" "COD_ASEGURADO" "NOMBRE ASEGURADO" [rowB1] scenarioB_row1 (by decide)

/-- C3: the spec claims the fiscal mapping {10,11,12}→Q1, {1,2,3}→Q2,
{4,5,6}→Q3, {7,8,9}→Q4.  The code computes `(month - 1) // 3 + 1`, which
sends October to Q4, not Q1. -/
theorem C3_counterexample : quarter_of_month 10 = 4 ∧ quarter_of_month 10 ≠ 1 := by decide

/-- C3 (amended): the code maps months to calendar quarters:
{1,2,3}→Q1, {4,5,6}→Q2, {7,8,9}→Q3, {10,11,12}→Q4, for every month
1-12. -/
theorem C3_amended :
    quarter_of_month 1 = 1 ∧ quarter_of_month 2 = 1 ∧ quarter_of_month 3 = 1 ∧
    quarter_of_month 4 = 2 ∧ quarter_of_month 5 = 2 ∧ quarter_of_month 6 = 2 ∧
    quarter_of_month 7 = 3 ∧ quarter_of_month 8 = 3 ∧ quarter_of_month 9 = 3 ∧
    quarter_of_month 10 = 4 ∧ quarter_of_month 11 = 4 ∧ quarter_of_month 12 = 4 := by
  decide

/-- C4: the spec claims every Period Summary reflects the cumulative
ledger — one row for every insured seen in any period so far, with
unchanged prior totals for inactive insureds.  The emitted
`quarter_data` tables are per-period only: in a Year-1 run where insured
`A` claims only in the first period and `B` only in the second, the
second period's summary has no row for `A` at all. -/
theorem C4_counterexample :
    process_quarters [fileD1, fileD2] year1_range year2_range =
      Except.ok [("Q4-2023", [rowDA]), ("Q1-2023", [rowDB])] ∧
    ¬ (CellVal.vstr "A" ∈ [rowDB].map SummaryRow.cod) :=
  ⟨rfl, by decide⟩

/-- C4 (amended): every emitted Period Summary contains exactly one row
per `(insured_code, insured_name)` pair occurring among the current
period's claims, and nothing else: insureds from earlier periods with no
claims in the current period do not appear, and no prior cumulative
totals are carried into the emitted tables. -/
theorem C4_amended :
    (∀ (dcol : Option String) (mcol ccol ncol : String) (rows : List Row),
        (year1_summary dcol mcol ccol ncol rows).map (fun r => (r.cod, r.nombre)) =
          groupPairs ccol ncol rows) ∧
    (∀ (mcol ccol ncol : String) (rows : List Row),
        (year2_summary mcol ccol ncol rows).map (fun r => (r.cod, r.nombre)) =
          groupPairs ccol ncol rows) ∧
    (process_quarters [fileD1, fileD2] year1_range year2_range =
      Except.ok [("Q4-2023", [rowDA]), ("Q1-2023", [rowDB])]) ∧
    ¬ (CellVal.vstr "A" ∈ [rowDB].map SummaryRow.cod) := by
  refine ⟨?_, ?_, rfl, by decide⟩
  · intro dcol mcol ccol ncol rows
    simp only [year1_summary, List.map_map]
    generalize groupPairs ccol ncol rows = l
    induction l with
    | nil => rfl
    | cons p ps ih =>
        simp only [List.map_cons, ih]
        rfl
  · intro mcol ccol ncol rows
    simp only [year2_summary, List.map_map]
    generalize groupPairs ccol ncol rows = l
    induction l with
    | nil => rfl
    | cons p ps ih =>
        simp only [List.map_cons, ih]
        rfl

/-- C5: in the Year-1 branch, `final` is `cap_value(total, 20000)`, so
for every insured row of every Year-1 Period Summary,
`|final| ≤ 20000`. -/
theorem C5_year1_final_capped (y1year : Int) (k : Nat × Int) (rows : List Row)
    (out : List SummaryRow) (hk : k.2 = y1year)
    (h : process_quarter y1year k rows = Except.ok out) :
    ∀ r ∈ out, |r.final| ≤ 20000 := by
  unfold process_quarter at h
  split at h
  · exact Except.noConfusion h
  · split at h
    · exact Except.noConfusion h
    · split at h
      · exact Except.noConfusion h
      · rw [if_pos hk] at h
        injection h with h
        subst h
        exact year1_summary_final_abs_le _ _ _ _ _

theorem C5_year1_final_capped_witness : |scenarioA_row.final| ≤ 20000 :=
  C5_year1_final_capped 2023 (1, 2023) [rowA1, rowA2] [scenarioA_row] rfl rfl
    scenarioA_row (by decide)

/-- C6: a Year-1 claim whose diagnosis text contains `COVID`
case-insensitively gets `covid_amount = amount` and `general_amount = 0`;
with no detected diagnosis column every claim gets `covid_amount = 0` and
its full amount as `general_amount`. -/
theorem C6_covid_classification :
    (∀ (dc mcol : String) (r : Row),
        containsCOVID (cellToStr (getCell r dc)) = true →
          covid_amount_row (some dc) mcol r = cellInt (getCell r mcol) ∧
          general_amount_row (some dc) mcol r = 0) ∧
    (∀ (mcol : String) (r : Row),
        covid_amount_row none mcol r = 0 ∧
        general_amount_row none mcol r = cellInt (getCell r mcol)) := by
  constructor
  · intro dc mcol r h
    constructor
    · simp [covid_amount_row, h]
    · simp [general_amount_row, covid_amount_row, h]
  · intro mcol r
    constructor
    · rfl
    · simp [general_amount_row, covid_amount_row]

theorem C6_covid_classification_witness :
    covid_amount_row (some "DIAGNOSTICO") "MONTO" rowA1 = cellInt (getCell rowA1 "MONTO") ∧
    general_amount_row (some "DIAGNOSTICO") "MONTO" rowA1 = 0 :=
  C6_covid_classification.1 "DIAGNOSTICO" "MONTO" rowA1 (by decide)

/-- C7: the spec claims a sheet missing only the insured-name header is
accepted (with a `No Name Provided` sentinel) and that rejected sheets
are recorded in a skipped-files list.  Line 63 requires all four columns
including `NOMBRE_ASEGURADO`: a sheet carrying insured code, claim date
and amount but no insured-name variant is rejected and contributes no
claims, and nothing records it. -/
theorem C7_counterexample :
    required_columns_present sheetNoName.header = false ∧
    sheet_valid_claims year1_range sheetNoName = none ∧
    load_and_validate_claims year1_range [sheetNoName] = [] ∧
    sheetNoName.rows ≠ [] :=
  ⟨rfl, rfl, rfl, by decide⟩

/-- C7 (amended): a sheet is rejected when any of the four headers —
insured code, insured name, claim date, amount — has no accepted
variant; a rejected sheet contributes no claims (when every sheet of a
file is rejected the validated table is empty), and rejection is silent:
no skipped-files list and no name sentinel exist. -/
theorem C7_amended :
    (∀ (rg : Date × Date) (s : Sheet), required_columns_present s.header = false →
        sheet_valid_claims rg s = none) ∧
    (∀ (rg : Date × Date) (sheets : List Sheet),
        (∀ s ∈ sheets, required_columns_present s.header = false) →
        load_and_validate_claims rg sheets = []) ∧
    required_columns_present sheetNoName.header = false := by
  refine ⟨?_, ?_, rfl⟩
  · intro rg s hs
    simp [sheet_valid_claims, hs]
  · intro rg sheets h
    have h' : ∀ s ∈ sheets, sheet_valid_claims rg s = none := by
      intro s hs
      simp [sheet_valid_claims, h s hs]
    unfold load_and_validate_claims
    rw [load_and_validate_foldl_const rg sheets ([], 0) h']

theorem C7_amended_witness : sheet_valid_claims year1_range sheetNoName = none :=
  C7_amended.1 year1_range sheetNoName (by decide)

/-- C8: the spec claims the amount field maps from any header containing
the substring `MONTO`.  The `variations` table accepts only the exact
header `MONTO`: the header `MONTO USD` contains the substring but is not
mapped. -/
theorem C8_counterexample :
    containsChars "MONTO".data "MONTO USD".data = true ∧
    lookupCol (detect_columns ["COD_ASEGURADO", "MONTO USD"]) "MONTO" = none ∧
    ("MONTO USD" : String) ≠ "MONTO" :=
  ⟨rfl, rfl, by decide⟩

/-- C8 (amended): the amount field is mapped exactly when the literal
header `MONTO` is present (and to that header); the diagnosis field maps
from the plural `DIAGNOSTICOS` when present, else from the singular
`DIAGNOSTICO` (first matching variant wins), and a field with no present
variant is omitted from the result. -/
theorem C8_amended :
    (∀ (cols : List String) (v : String),
        ("MONTO", v) ∈ detect_columns cols ↔ v = "MONTO" ∧ "MONTO" ∈ cols) ∧
    (∀ (cols : List String) (v : String),
        ("DIAGNOSTICO", v) ∈ detect_columns cols ↔
          (("DIAGNOSTICOS" ∈ cols ∧ v = "DIAGNOSTICOS") ∨
           ("DIAGNOSTICOS" ∉ cols ∧ "DIAGNOSTICO" ∈ cols ∧ v = "DIAGNOSTICO"))) := by
  constructor
  · intro cols v
    rcases hN : List.find? (fun o => decide (o ∈ cols))
        ["NOMBRES ASEGURADO", "NOMBRE ASEGURADO", "NOMBRESASEURADO"] with _ | oN <;>
    rcases hD : List.find? (fun o => decide (o ∈ cols))
        ["DIAGNOSTICOS", "DIAGNOSTICO"] with _ | oD <;>
    by_cases h : "MONTO" ∈ cols <;>
      simp [detect_columns, variations, List.mem_filterMap, hN, hD, h, eq_comm]
  · intro cols v
    rcases hN : List.find? (fun o => decide (o ∈ cols))
        ["NOMBRES ASEGURADO", "NOMBRE ASEGURADO", "NOMBRESASEURADO"] with _ | oN <;>
    by_cases h1 : "DIAGNOSTICOS" ∈ cols <;> by_cases h2 : "DIAGNOSTICO" ∈ cols <;>
      simp [detect_columns, variations, List.mem_filterMap, hN, h1, h2, eq_comm]

/-- C9: a file's claims are filtered against the Year-1 window iff the
filename's 4-digit year token equals 2023 (`year == year1_range[0].year`
at line 98); any other token — or none — selects the Year-2 window.  The
file `enero 2024` holds a claim dated 2024-01-15, inside the Year-1
window (as `sheet_valid_claims` against `year1_range` shows), yet is
filtered against the Year-2 window and contributes zero claims. -/
theorem C9_year_window_selection :
    (∀ name : String,
        range_for_year (extract_month_year name).2 year1_range year2_range = year1_range ↔
          (extract_month_year name).2 = some 2023) ∧
    sheet_valid_claims year1_range sheetC9 = some [rowC9] ∧
    extract_month_year fileC9.name = (some "enero", some 2024) ∧
    fileStep year1_range year2_range fileC9 = Except.ok [] := by
  refine ⟨?_, rfl, rfl, rfl⟩
  intro name
  by_cases h : (extract_month_year name).2 = some 2023 <;>
    simp [range_for_year, year1_range, year2_range, h]

/-- C10: a filename with no 4-digit year token whose sheets all fail
column validation leaves an empty validated table, on which column
detection returns the empty mapping; the fallback year detection then
indexes `detected_columns["FECHA_RECLAMO"]` and raises `KeyError`, which
propagates uncaught out of `process_quarters` instead of skipping the
file. -/
theorem C10_uncaught_keyerror :
    process_quarters [fileC10] year1_range year2_range =
      Except.error "KeyError: FECHA_RECLAMO" ∧
    extract_month_year fileC10.name = (none, none) ∧
    load_and_validate_claims (range_for_year none year1_range year2_range) fileC10.sheets = [] ∧
    detect_columns (columnsOf ([] : List Row)) = [] :=
  ⟨rfl, rfl, rfl, rfl⟩

theorem C4_amended_witness :
    (year1_summary none "MONTO" "COD_ASEGURADO" "NOMBRE ASEGURADO" [rowD1]).map
      (fun r => (r.cod, r.nombre)) =
      groupPairs "COD_ASEGURADO" "NOMBRE ASEGURADO" [rowD1] :=
  C4_amended.1 none "MONTO" "COD_ASEGURADO" "NOMBRE ASEGURADO" [rowD1]

theorem C8_amended_witness : ("MONTO", "MONTO") ∈ detect_columns ["MONTO"] :=
  (C8_amended.1 ["MONTO"] "MONTO").mpr ⟨rfl, by decide⟩

theorem C9_year_window_selection_witness :
    range_for_year (extract_month_year "enero 2023.xlsx").2 year1_range year2_range =
      year1_range :=
  (C9_year_window_selection.1 "enero 2023.xlsx").mpr rfl

theorem C3_amended_witness : quarter_of_month 10 = 4 := C3_amended.2.2.2.2.2.2.2.2.2.1
